import Mathlib

/-!
Shallow embedding of the trust-boundary layer of the `ai-tutor` backend:
the credential normalizer (`normalizeKey`), the two-layer content-moderation
pipeline (`moderateText` over the fixed `BLOCKED_TERMS` list with the
`(^|\s|\b)term(\s|\b|$)` regular expression), the chat and vision request
handlers that wrap it, the Lemon Squeezy webhook handler (HMAC signature
check via `crypto.timingSafeEqual` followed by an idempotent entitlement
update), and a backoff-aware retry client.

External effects (the classifier call, the LLM proxy call, the Supabase
update result) are modelled as explicit input parameters describing their
outcome; the handlers are then pure functions from those inputs to an
observable outcome (HTTP status, whether the canned blocked body was sent,
whether the outbound LLM call / entitlement update was issued).
-/

namespace AiTutor

/-- The ASCII apostrophe character, written via its code point. -/
def sq : Char := Char.ofNat 39

/-- JavaScript `\w` character class: ASCII letters, digits and underscore
(`Char.isAlpha` / `Char.isDigit` are the ASCII ranges). -/
def isWordChar (c : Char) : Bool :=
  c.isAlpha || c.isDigit || c == Char.ofNat 95

/-- JavaScript `\s`-style whitespace (the members relevant to this code
base: space, tab, LF, VT, FF, CR, NBSP). -/
def jsSpace (c : Char) : Bool :=
  c == ' ' || c == Char.ofNat 9 || c == Char.ofNat 10 || c == Char.ofNat 11 ||
  c == Char.ofNat 12 || c == Char.ofNat 13 || c == Char.ofNat 160

/-- `wAt s p` is true when position `p` of `s` holds a word character
(positions past the end count as non-word, as at a string edge in JS). -/
def wAt (s : List Char) (p : Nat) : Bool :=
  match s.get? p with
  | some c => isWordChar c
  | none => false

/-- `spAt s p`: position `p` of `s` holds a JS whitespace character. -/
def spAt (s : List Char) (p : Nat) : Bool :=
  match s.get? p with
  | some c => jsSpace c
  | none => false

/-- JS regex `\b` at boundary position `p` (between `s[p-1]` and `s[p]`):
exactly one side is a word character; the positions outside the string
count as non-word. -/
def boundaryAt (s : List Char) (p : Nat) : Bool :=
  (if p = 0 then false else wAt s (p - 1)) != wAt s p

/-- The term `t` occurs literally in `s` starting at index `i`. -/
def occursAt (s t : List Char) (i : Nat) : Bool :=
  (s.drop i).take t.length == t

/-- The left alternation `(^|\s|\b)` of the keyword pattern, for a match of
the term starting at index `i`: start of string, or a whitespace character
just before `i`, or a `\b` word boundary at `i`. -/
def leftOk (s : List Char) (i : Nat) : Bool :=
  i == 0 || spAt s (i - 1) || boundaryAt s i

/-- The right alternation `(\s|\b|$)` of the keyword pattern, at the
position `k` just after the term: a whitespace character at `k`, or a `\b`
word boundary at `k`, or end of string. -/
def rightOk (s : List Char) (k : Nat) : Bool :=
  k == s.length || spAt s k || boundaryAt s k

/-- `new RegExp('(^|\\s|\\b)' + escaped + '(\\s|\\b|$)', 'i').test(lower)`:
the escaped term is a literal, so the pattern matches iff the term occurs
at some index with the two alternations satisfied around it. -/
def termTest (t s : List Char) : Bool :=
  (List.range (s.length + 1)).any (fun i =>
    occursAt s t i && leftOk s i && rightOk s (i + t.length))

/-- The fixed keyword blocklist `BLOCKED_TERMS` from the source. -/
def BLOCKED_TERMS : List String := [
  "kill", "murder", "shoot", "stab", "gun", "knife", "bomb", "explode", "attack", "weapon",
  "assassin", "sniper", "grenade", "suicide", "hang myself", "hurt myself", "cut myself",
  "sex", "porn", "naked", "nude", "boobs", "penis", "vagina", "condom", "orgasm",
  "rape", "molest", "prostitute", "escort", "stripper", "masturbat",
  "cocaine", "heroin", "meth", "drug dealer", "weed", "marijuana", "ecstasy", "lsd",
  "overdose", "get high", "get drunk", "alcohol", "cigarette", "vape", "smoke weed",
  "racist", "nigger", "faggot", "slur", "white supremacy", "neo nazi", "terrorist",
  "demon", "satanic", "666", "possessed", "torture", "gore", "bloody corpse",
  "self harm", "self-harm", "want to die", "end my life", "kill myself",
  "ignore your instructions", "ignore previous", "jailbreak", "act as dan",
  "you are now", "pretend you have no", "disregard all prior"]

/-- Layer 2 of `moderateText`: the first blocklisted term whose pattern
matches the (already lowercased) input, if any. -/
def keywordHit (lower : String) : Option String :=
  BLOCKED_TERMS.find? (fun term => termTest term.data lower.data)

/-- `text.toLowerCase()` restricted to its ASCII action (character-wise
`Char.toLower`), kept list-based so that it evaluates by reduction. -/
def jsToLower (s : String) : String := String.mk (s.data.map Char.toLower)

/-- Outcome of the layer-1 OpenAI moderation call, as seen by
`moderateText`: no key configured, the fetch threw, a non-success HTTP
status, a successful call that did not flag, or a flag with the joined
category list. -/
inductive L1Outcome where
  | unavailable
  | failure
  | notOk
  | clean
  | flagged (categories : String)
deriving DecidableEq, Repr

/-- The `ModerationVerdict` object returned by `moderateText`
(`layer` is `some "openai"` or `some "keyword"`; `reason` holds the
category list or the matched term). -/
structure Verdict where
  blocked : Bool
  layer : Option String
  reason : Option String
deriving DecidableEq, Repr

/-- `moderateText(text)`: empty or non-string input passes; an OpenAI flag
blocks with layer `openai`; otherwise (including every layer-1 failure
mode) the keyword filter runs on the lowercased text. -/
def moderateText (l1 : L1Outcome) (text : Option String) : Verdict :=
  match text with
  | none => ⟨false, none, none⟩
  | some t =>
    if t = "" then ⟨false, none, none⟩
    else
      match l1 with
      | .flagged cats => ⟨true, some "openai", some cats⟩
      | _ =>
        match keywordHit (jsToLower t) with
        | some term => ⟨true, some "keyword", some term⟩
        | none => ⟨false, none, none⟩

/-- A quote character for `normalizeKey` (double or single quote). -/
def isQuote (c : Char) : Bool := c == '"' || c == sq

/-- `clean.replace(/^["']|["']$/g, '')`: drop one leading and one trailing
quote character. -/
def stripOuterQuotes (s : List Char) : List Char :=
  let s1 := match s with
    | [] => []
    | c :: rest => if isQuote c then rest else c :: rest
  match s1.getLast? with
  | some c => if isQuote c then s1.dropLast else s1
  | none => s1

/-- `key.trim()`: drop whitespace from both ends. -/
def jsTrim (s : List Char) : List Char :=
  ((s.dropWhile jsSpace).reverse.dropWhile jsSpace).reverse

/-- `s` starts with the prefix `p`. -/
def startsWithL (p s : List Char) : Bool := s.take p.length == p

/-- `normalizeKey(key)` from the source: `null` on falsy input, then trim,
strip surrounding quotes, remove all whitespace, and rewrite a legacy
`sk...` prefix (not already `sk_` or `sk-`) to `sk_...`. -/
def normalizeKey (key : Option String) : Option String :=
  match key with
  | none => none
  | some k =>
    if k = "" then none
    else
      let c1 := jsTrim k.data
      let c2 := stripOuterQuotes c1
      let c3 := c2.filter (fun c => !(jsSpace c))
      if startsWithL ['s', 'k'] c3 && !(startsWithL ['s', 'k', '_'] c3) &&
          !(startsWithL ['s', 'k', Char.ofNat 45] c3) then
        some (String.mk ('s' :: 'k' :: Char.ofNat 95 :: c3.drop 2))
      else
        some (String.mk c3)

/-! ## Chat and vision handlers -/

/-- One element of the `messages` array of a chat request. -/
structure ChatMsg where
  role : String
  content : String
deriving DecidableEq, Repr

/-- Outcome of the outbound LLM proxy fetch, as seen by the handlers:
a non-success HTTP status with an error body, a success whose JSON has
`choices[0]`, a success without it, or a thrown fetch error. -/
inductive LlmResult where
  | httpError (status : Nat) (body : String)
  | okGood (content : String)
  | okBad
  | threw
deriving DecidableEq, Repr

/-- Observable outcome of a chat or vision request: the HTTP status, whether
the fixed `BLOCKED_RESPONSE` canned-safe-message body was sent, and whether
the outbound LLM proxy call was issued. -/
structure HandlerOutcome where
  status : Nat
  blockedBody : Bool
  llmCalled : Bool
deriving DecidableEq, Repr

/-- `userMessages[userMessages.length - 1].content` with the `''` fallback:
the content of the last `role === 'user'` message, else the empty string. -/
def lastUserText (messages : Option (List ChatMsg)) : String :=
  let userMessages := (messages.getD []).filter (fun m => m.role == "user")
  match userMessages.getLast? with
  | some m => m.content
  | none => ""

/-- `POST /api/chat`: key check, moderation of the last user message
(only when it is nonempty), then the LLM proxy call; a block returns 451
with the canned body and skips the proxy call. -/
def chatHandler (openRouterKey : Option String) (l1 : L1Outcome)
    (llm : LlmResult) (messages : Option (List ChatMsg)) : HandlerOutcome :=
  match normalizeKey openRouterKey with
  | none => ⟨500, false, false⟩
  | some k =>
    if k = "" ∨ k = "your_openrouter_key_here" then ⟨500, false, false⟩
    else
      let t := lastUserText messages
      if t ≠ "" ∧ (moderateText l1 (some t)).blocked then ⟨451, true, false⟩
      else
        match llm with
        | .httpError s _ => ⟨s, false, true⟩
        | .okGood _ => ⟨200, false, true⟩
        | .okBad => ⟨500, false, true⟩
        | .threw => ⟨500, false, true⟩

/-- `POST /api/vision`: key check, then the LLM proxy call directly — the
prompt text is forwarded without any moderation check; a non-success
upstream status throws and is caught, giving 500. -/
def visionHandler (openRouterKey : Option String) (llm : LlmResult)
    (prompt : String) : HandlerOutcome :=
  match normalizeKey openRouterKey with
  | none => ⟨500, false, false⟩
  | some k =>
    if k = "" ∨ k = "your_openrouter_key_here" then ⟨500, false, false⟩
    else
      match llm with
      | .httpError _ _ => ⟨500, false, true⟩
      | .okGood _ => ⟨200, false, true⟩
      | .okBad => ⟨500, false, true⟩
      | .threw => ⟨500, false, true⟩

/-! ## Webhook trust gate -/

/-- `payload.meta.custom_data` of a webhook body. -/
structure CustomData where
  user_email : Option String
deriving DecidableEq, Repr

/-- `payload.meta` of a webhook body; a missing field reads as `none`
(JS `undefined`). -/
structure WebhookMeta where
  event_name : Option String
  custom_data : Option CustomData
deriving DecidableEq, Repr

/-- The parsed JSON body of a webhook request; `meta = none` models a
payload whose `meta` member is absent (so reading `meta.event_name`
throws a `TypeError`). -/
structure WebhookPayload where
  meta : Option WebhookMeta
deriving DecidableEq, Repr

/-- Server-side configuration and store behavior for one webhook call:
the `LEMONSQUEEZY_WEBHOOK_SECRET`, whether the Supabase client was
initialized, and whether the `profiles` update returns an error. -/
structure WebhookEnv where
  secret : Option String
  supabaseConfigured : Bool
  dbUpdateFails : Bool
deriving DecidableEq, Repr

/-- One inbound webhook request: the captured raw bytes (absent when the
body-parser `verify` hook did not run), the `x-signature` header, and the
parsed JSON payload. -/
structure WebhookReq where
  rawBody : Option (List Nat)
  xSignature : Option String
  payload : WebhookPayload
deriving DecidableEq, Repr

/-- Observable outcome of a webhook request: the HTTP status, whether the
`is_premium = true` update was issued to the store, and whether it
succeeded. -/
structure WebhookOutcome where
  status : Nat
  updateIssued : Bool
  updateSucceeded : Bool
deriving DecidableEq, Repr

/-- The part of the webhook handler after signature verification: read
`payload.meta.event_name` and `payload.meta.custom_data.user_email`
(a missing object throws, caught as 500), then for a qualifying event with
the Supabase client configured issue the `is_premium` update (500 on store
error), and finally 200. -/
def webhookAfterVerify (env : WebhookEnv) (payload : WebhookPayload) : WebhookOutcome :=
  match payload.meta with
  | none => ⟨500, false, false⟩
  | some m =>
    match m.custom_data with
    | none => ⟨500, false, false⟩
    | some _ =>
      if (m.event_name == some "order_created" ||
          m.event_name == some "subscription_created") && env.supabaseConfigured then
        if env.dbUpdateFails then ⟨500, true, false⟩ else ⟨200, true, true⟩
      else ⟨200, false, false⟩

/-- `POST /api/webhook`, parameterized by the HMAC-SHA256 hex digest
function (an external crypto primitive): 500 when the secret is missing,
400 when the raw body is missing, then `crypto.timingSafeEqual` on the
UTF-8 buffers of the digest and the `x-signature` header — it throws on
differing byte lengths (caught as 500) and yields 401 on an equal-length
mismatch; only then the parsed payload is processed. -/
def webhookHandler (hmacHex : String → List Nat → String)
    (env : WebhookEnv) (req : WebhookReq) : WebhookOutcome :=
  match env.secret with
  | none => ⟨500, false, false⟩
  | some secret =>
    match req.rawBody with
    | none => ⟨400, false, false⟩
    | some raw =>
      let digest := hmacHex secret raw
      let signature := req.xSignature.getD ""
      if digest.utf8ByteSize ≠ signature.utf8ByteSize then ⟨500, false, false⟩
      else if digest ≠ signature then ⟨401, false, false⟩
      else webhookAfterVerify env req.payload

/-! ## Backoff-aware upstream client -/

/-- Modelled from the spec: no retry loop is present under `src/` (the
`generate-image` handlers issue a single upstream call), so the
Backoff-Aware Upstream Client of spec section 4.2 is modelled here.
One upstream response: a success, the transient "model is loading" signal
with an optional server-suggested wait duration, or a fatal status. -/
inductive UpstreamResp where
  | success (body : String)
  | loading (waitHint : Option Nat)
  | fatal (status : Nat)
deriving DecidableEq, Repr

/-- Modelled from the spec: result of `callWithRetry` — the upstream
response with the number of attempts used, a fatal upstream error
surfaced immediately, or a `RetryExhausted` error after the attempt cap,
kept as distinct constructors so the two error kinds are distinguishable. -/
inductive RetryResult where
  | ok (body : String) (attemptsUsed : Nat)
  | fatalError (status : Nat) (attemptsUsed : Nat)
  | retryExhausted (attemptsUsed : Nat)
deriving DecidableEq, Repr

/-- Modelled from the spec: the retry loop of `callWithRetry` with the
attempts already made and the attempts remaining; a transient `loading`
response consumes one attempt (after the suggested or default wait, not
modelled in this pure embedding) and any other response returns. -/
def callWithRetryGo (upstream : Nat → UpstreamResp) (attempt : Nat) :
    Nat → RetryResult
  | 0 => .retryExhausted attempt
  | fuel + 1 =>
    match upstream attempt with
    | .success b => .ok b (attempt + 1)
    | .fatal s => .fatalError s (attempt + 1)
    | .loading _ => callWithRetryGo upstream (attempt + 1) fuel

/-- Modelled from the spec: `callWithRetry(target, maxAttempts)` issues up
to `maxAttempts` total attempts against the upstream (attempt numbers
starting at 0). -/
def callWithRetry (upstream : Nat → UpstreamResp) (maxAttempts : Nat) : RetryResult :=
  callWithRetryGo upstream 0 maxAttempts

/-- An upstream that reports "loading" on the first two attempts and
succeeds on the third. -/
def loadingTwiceMock : Nat → UpstreamResp := fun n =>
  if n < 2 then UpstreamResp.loading (some 20) else UpstreamResp.success "image"

/-- An upstream that always reports the transient "loading" signal. -/
def alwaysLoadingMock : Nat → UpstreamResp := fun _ => UpstreamResp.loading none

/-! ## Auxiliary notions for the keyword-matching claims -/

/-- The occurrence of `t` at index `i` of `s` is directly preceded or
directly followed by a word character (it sits inside a longer word). -/
def occurrenceEmbedded (s t : List Char) (i : Nat) : Bool :=
  (decide (0 < i) && wAt s (i - 1)) || wAt s (i + t.length)

/-- Every occurrence of every blocklisted term in `s` is embedded against a
word character on at least one side: `s` contains blocklisted terms only as
proper substrings of longer words. -/
def embeddedOnly (s : List Char) : Bool :=
  BLOCKED_TERMS.all (fun term =>
    (List.range (s.length + 1)).all (fun i =>
      !(occursAt s term.data i) || occurrenceEmbedded s term.data i))

/-- A stand-in for the external HMAC-SHA256 hex primitive: a fixed
64-ASCII-character digest, the shape `crypto.createHmac('sha256', _)
.update(_).digest('hex')` always produces. -/
def mockDigest : String := String.mk (List.replicate 64 'a')

/-- The stand-in digest function used to instantiate the webhook handler
at concrete inputs. -/
def mockHmacS : String → List Nat → String := fun _ _ => mockDigest

/-- The operator key of the spec's first normalization vector,
`"  'sk1234'  "`, built character-wise. -/
def legacyPastedKey : String :=
  String.mk [' ', ' ', sq, 's', 'k', '1', '2', '3', '4', sq, ' ', ' ']

/-- A webhook environment whose Supabase client was never initialized
(missing store credentials) but whose webhook secret is configured. -/
def storelessEnv : WebhookEnv := ⟨some "whsec", false, false⟩

/-- A webhook environment with secret and store both configured. -/
def fullEnv : WebhookEnv := ⟨some "whsec", true, false⟩

/-- A correctly signed `order_created` webhook request. -/
def qualifyingReq : WebhookReq :=
  ⟨some [1, 2, 3], some mockDigest,
    ⟨some ⟨some "order_created", some ⟨some "kid@example.com"⟩⟩⟩⟩

/-- A webhook request with the secret configured and a raw body captured
but no `x-signature` header at all. -/
def unsignedReq : WebhookReq := ⟨some [1, 2, 3], none, ⟨none⟩⟩

/-- A webhook request carrying a forged signature of the same length as
the digest (64 characters `b` against 64 characters `a`). -/
def forgedReq : WebhookReq :=
  ⟨some [1, 2, 3], some (String.mk (List.replicate 64 'b')), ⟨none⟩⟩

/-- A correctly signed webhook request whose payload lacks the `meta`
object. -/
def metalessReq : WebhookReq := ⟨some [1, 2, 3], some mockDigest, ⟨none⟩⟩

/-! ## Helper lemmas -/

/-- A word character is never a JS whitespace character. -/
theorem word_not_space (c : Char) (h : isWordChar c = true) : jsSpace c = false := by
  by_contra hc
  rw [Bool.not_eq_false, jsSpace] at hc
  have hx : ∀ d : Char, c = d → isWordChar d = true := fun d hd => hd ▸ h
  simp only [Bool.or_eq_true] at hc
  rcases hc with ((((((h1 | h1) | h1) | h1) | h1) | h1) | h1) <;>
    exact absurd (hx _ (eq_of_beq h1)) (by decide)

/-- A position holding a word character is inside the string. -/
theorem wAt_lt (s : List Char) (p : Nat) (h : wAt s p = true) : p < s.length := by
  by_contra hc
  unfold wAt at h
  rw [List.get?_eq_none.mpr (Nat.le_of_not_lt hc)] at h
  exact Bool.noConfusion h

/-- A position holding a word character does not hold a whitespace
character. -/
theorem spAt_of_wAt (s : List Char) (p : Nat) (h : wAt s p = true) :
    spAt s p = false := by
  unfold wAt at h
  unfold spAt
  cases hg : s.get? p with
  | none => rw [hg] at h
  | some c => rw [hg] at h; exact word_not_space c h

/-- Characters inside an occurrence of `t` at `i` agree with `t`. -/
theorem occursAt_get (s t : List Char) (i : Nat) (h : occursAt s t i = true)
    (j : Nat) (hj : j < t.length) : s.get? (i + j) = t.get? j := by
  unfold occursAt at h
  have he : (s.drop i).take t.length = t := eq_of_beq h
  calc s.get? (i + j) = (s.drop i).get? j := (List.get?_drop s i j).symm
    _ = ((s.drop i).take t.length).get? j := (List.get?_take hj).symm
    _ = t.get? j := by rw [he]

/-- `wAt` transported along an occurrence. -/
theorem occursAt_wAt (s t : List Char) (i : Nat) (h : occursAt s t i = true)
    (j : Nat) (hj : j < t.length) : wAt s (i + j) = wAt t j := by
  unfold wAt
  rw [occursAt_get s t i h j hj]

/-- Every blocklisted term is nonempty and starts and ends with a word
character. -/
theorem terms_shape : ∀ term ∈ BLOCKED_TERMS, 0 < term.data.length ∧
    wAt term.data 0 = true ∧ wAt term.data (term.data.length - 1) = true := by
  decide

/-! ## Claim theorems -/

/-- C9: the credential normalizer satisfies the spec's three test vectors:
quotes and whitespace are stripped and the legacy `sk` prefix gains an
underscore separator; a modern `sk-or-v1-` key is returned unchanged; the
empty string yields the absence signal `none`. -/
theorem normalizeKey_vectors :
    normalizeKey (some legacyPastedKey) = some "sk_1234" ∧
    normalizeKey (some "sk-or-v1-abc") = some "sk-or-v1-abc" ∧
    normalizeKey (some "") = none := by
  decide

/-- C8: `callWithRetry` against an upstream that reports "loading" twice
then succeeds returns the successful response after exactly 3 attempts;
against every upstream that always reports the transient "loading" signal
it terminates with the `retryExhausted` error after the default cap of 3
attempts, an error distinct from every `fatalError`. -/
theorem callWithRetry_attempts (up : Nat → UpstreamResp)
    (hup : ∀ n, up n = UpstreamResp.loading none) :
    callWithRetry loadingTwiceMock 3 = RetryResult.ok "image" 3 ∧
    callWithRetry up 3 = RetryResult.retryExhausted 3 ∧
    ∀ s k, callWithRetry up 3 ≠ RetryResult.fatalError s k := by
  have h2 : callWithRetry up 3 = RetryResult.retryExhausted 3 := by
    simp [callWithRetry, callWithRetryGo, hup 0, hup 1, hup 2]
  exact ⟨by decide, h2, fun s k h => RetryResult.noConfusion (h2.symm.trans h)⟩

/-- C8, witness: the theorem applied to the always-loading upstream. -/
theorem callWithRetry_attempts_witness :
    callWithRetry alwaysLoadingMock 3 = RetryResult.retryExhausted 3 :=
  (callWithRetry_attempts alwaysLoadingMock (fun _ => rfl)).2.1

/-- C3: evaluation at the failing input — a webhook request that passes
signature verification and carries `order_created`, handled while the
entitlement store client is unconfigured, is acknowledged with 200 even
though no entitlement update was issued. -/
theorem webhook_ack_without_store_bug :
    webhookHandler mockHmacS storelessEnv qualifyingReq =
      ⟨200, false, false⟩ := by
  decide

/-- C2, counterexample: with the secret configured and the raw body
present, an absent `x-signature` header (a mismatch of different length
than the 64-character digest) produces status 500, not the 401 the claim
states — `crypto.timingSafeEqual` throws on buffers of different length
and the surrounding catch answers 500. No entitlement update is issued. -/
theorem webhook_mismatch_401_counterexample :
    (webhookHandler mockHmacS fullEnv unsignedReq).status = 500 ∧
    ((webhookHandler mockHmacS fullEnv unsignedReq).status == 401) = false ∧
    (webhookHandler mockHmacS fullEnv unsignedReq).updateIssued = false := by
  decide

/-- C4, counterexample: the text `"kill"` is blocked by the moderation
pipeline (keyword layer), yet a vision request carrying it as prompt is
forwarded to the LLM proxy and answered 200 — the vision handler performs
no moderation at all, contradicting the claim for vision requests. -/
theorem vision_unmoderated_counterexample :
    (moderateText L1Outcome.unavailable (some "kill")).blocked = true ∧
    visionHandler (some "sk-or-v1-abc") (LlmResult.okGood "resp") "kill" =
      ⟨200, false, true⟩ := by
  decide

/-- C6, counterexample: the layer-2 pattern does use the generic
word-boundary token `\b` in both alternations, so the blocklisted term
`kill` followed directly by a period — no whitespace and no end-of-string
— still matches and blocks, contrary to the claim. -/
theorem boundary_token_counterexample :
    termTest "kill".data "kill.".data = true ∧
    (moderateText L1Outcome.unavailable (some "kill.")).blocked = true := by
  decide

/-- C6, amended: the pattern built for each term is
`(^|\s|\b)term(\s|\b|$)`, which besides start/whitespace on the left and
whitespace/end on the right also accepts a generic `\b` word boundary on
either side; consequently an occurrence of a word-shaped term flanked by
non-word characters (e.g. punctuation) on both sides does match. -/
theorem pattern_matches_at_nonword_boundary (t s : List Char) (i : Nat)
    (hocc : occursAt s t i = true) (hi : 0 < i)
    (hpre : wAt s (i - 1) = false) (hfirst : wAt s i = true)
    (hlast : wAt s (i + t.length - 1) = true)
    (hpost : wAt s (i + t.length) = false) :
    termTest t s = true := by
  unfold termTest
  rw [List.any_eq_true]
  refine ⟨i, List.mem_range.mpr ?_, ?_⟩
  · have := wAt_lt s i hfirst; omega
  · rw [Bool.and_eq_true, Bool.and_eq_true]
    refine ⟨⟨hocc, ?_⟩, ?_⟩
    · rw [leftOk, boundaryAt, if_neg (by omega : ¬ i = 0), hpre, hfirst]
      simp
    · rw [rightOk, boundaryAt, if_neg (by omega : ¬ i + t.length = 0), hlast, hpost]
      simp

/-- C6, witness: the amended theorem applied to the occurrence of `kill`
inside `(kill)`, flanked by parentheses. -/
theorem pattern_matches_at_nonword_boundary_witness :
    occursAt "(kill)".data "kill".data 1 = true ∧
    termTest "kill".data "(kill)".data = true := by
  refine ⟨by decide, pattern_matches_at_nonword_boundary "kill".data "(kill)".data 1
    (by decide) (by decide) (by decide) (by decide) (by decide) (by decide)⟩

/-- C5: whenever layer 1 is unavailable, throws, or reports a non-success
status, `moderateText` still runs the keyword layer and blocks with layer
`"keyword"` any text the keyword filter matches; a layer-1 failure never
disables layer 2. -/
theorem keyword_layer_survives_l1_failure (l1 : L1Outcome) (t term : String)
    (hl1 : l1 = .unavailable ∨ l1 = .failure ∨ l1 = .notOk)
    (hhit : keywordHit (jsToLower t) = some term) :
    moderateText l1 (some t) = ⟨true, some "keyword", some term⟩ := by
  have ht : t ≠ "" := by
    intro h
    rw [h, show keywordHit (jsToLower "") = none from by decide] at hhit
    exact Option.noConfusion hhit
  rcases hl1 with h | h | h <;> subst h <;> simp [moderateText, ht, hhit]

/-- C5, witness: the theorem applied with a thrown layer-1 call and the
text `kill`. -/
theorem keyword_layer_survives_l1_failure_witness :
    keywordHit (jsToLower "kill") = some "kill" ∧
    moderateText L1Outcome.failure (some "kill") =
      ⟨true, some "keyword", some "kill"⟩ := by
  refine ⟨by decide, keyword_layer_survives_l1_failure L1Outcome.failure "kill" "kill"
    (Or.inr (Or.inl rfl)) (by decide)⟩

/-- C1: if the webhook handler issued the `is_premium = true` update to
the entitlement store, then the secret was configured, the raw body was
captured, and the supplied `x-signature` header is byte-for-byte equal to
the HMAC hex digest of the raw body — i.e. the request passed the
timing-safe comparison earlier in the same invocation. -/
theorem webhook_premium_requires_signature (hmacHex : String → List Nat → String)
    (env : WebhookEnv) (req : WebhookReq)
    (h : (webhookHandler hmacHex env req).updateIssued = true) :
    ∃ s b, env.secret = some s ∧ req.rawBody = some b ∧
      req.xSignature.getD "" = hmacHex s b := by
  rcases hs : env.secret with _ | s
  · simp [webhookHandler, hs] at h
  · rcases hb : req.rawBody with _ | b
    · simp [webhookHandler, hs, hb] at h
    · simp only [webhookHandler, hs, hb] at h
      by_cases hlen : (hmacHex s b).utf8ByteSize ≠ (req.xSignature.getD "").utf8ByteSize
      · rw [if_pos hlen] at h
        exact Bool.noConfusion h
      · rw [if_neg hlen] at h
        by_cases hne : hmacHex s b ≠ req.xSignature.getD ""
        · rw [if_pos hne] at h
          exact Bool.noConfusion h
        · push_neg at hne
          exact ⟨s, b, by simp [hs], by simp [hb], hne.symm⟩

/-- C1, witness: the theorem applied to a correctly signed qualifying
request handled with the store configured, where the update is issued. -/
theorem webhook_premium_requires_signature_witness :
    (webhookHandler mockHmacS fullEnv qualifyingReq).updateIssued = true ∧
    qualifyingReq.xSignature.getD "" = mockHmacS "whsec" [1, 2, 3] := by
  obtain ⟨s, b, hs, hb, hsig⟩ :=
    webhook_premium_requires_signature mockHmacS fullEnv qualifyingReq (by decide)
  exact ⟨by decide, hsig⟩

/-- C2, amended: with the secret configured and the raw body present, a
supplied `x-signature` that differs from the hex HMAC digest yields 401
when its UTF-8 byte length equals the digest's, and 500 when the lengths
differ (including an absent or empty header, since `timingSafeEqual`
throws on length mismatch and the catch answers 500); in either case no
entitlement update is issued. -/
theorem webhook_mismatch_status (hmacHex : String → List Nat → String)
    (env : WebhookEnv) (req : WebhookReq) (s : String) (b : List Nat)
    (hs : env.secret = some s) (hb : req.rawBody = some b)
    (hne : req.xSignature.getD "" ≠ hmacHex s b) :
    ((req.xSignature.getD "").utf8ByteSize = (hmacHex s b).utf8ByteSize →
      (webhookHandler hmacHex env req).status = 401) ∧
    ((req.xSignature.getD "").utf8ByteSize ≠ (hmacHex s b).utf8ByteSize →
      (webhookHandler hmacHex env req).status = 500) ∧
    (webhookHandler hmacHex env req).updateIssued = false := by
  simp only [webhookHandler, hs, hb]
  by_cases hlen : (hmacHex s b).utf8ByteSize ≠ (req.xSignature.getD "").utf8ByteSize
  · rw [if_pos hlen]
    exact ⟨fun hl => absurd hl.symm hlen, fun _ => rfl, rfl⟩
  · rw [if_neg hlen, if_pos (fun he => hne he.symm)]
    push_neg at hlen
    exact ⟨fun _ => rfl, fun hl => absurd hlen.symm hl, rfl⟩

/-- C2, witness: the amended theorem applied to a same-length forged
signature, which is answered 401. -/
theorem webhook_mismatch_status_witness :
    (forgedReq.xSignature.getD "" == mockHmacS "whsec" [1, 2, 3]) = false ∧
    (webhookHandler mockHmacS fullEnv forgedReq).status = 401 := by
  refine ⟨by decide, ?_⟩
  exact (webhook_mismatch_status mockHmacS fullEnv forgedReq
    "whsec" [1, 2, 3] rfl rfl (by decide)).1 (by decide)

/-- C10: a webhook request that passes signature verification but whose
parsed payload lacks the `meta` object, or whose `meta` lacks the
`custom_data` object, is answered 500 — the field access throws a
`TypeError` caught by the handler — and no entitlement update is issued. -/
theorem webhook_malformed_payload_500 (hmacHex : String → List Nat → String)
    (env : WebhookEnv) (req : WebhookReq) (s : String) (b : List Nat)
    (hs : env.secret = some s) (hb : req.rawBody = some b)
    (hsig : req.xSignature.getD "" = hmacHex s b)
    (hmal : req.payload.meta = none ∨
      ∃ m, req.payload.meta = some m ∧ m.custom_data = none) :
    webhookHandler hmacHex env req = ⟨500, false, false⟩ := by
  simp only [webhookHandler, hs, hb]
  rw [if_neg (by rw [hsig]; exact fun hc => hc rfl),
    if_neg (by rw [hsig]; exact fun hc => hc rfl)]
  rcases hmal with hm | ⟨m, hm, hcd⟩
  · simp [webhookAfterVerify, hm]
  · simp [webhookAfterVerify, hm, hcd]

/-- C10, witness: the theorem applied to a correctly signed request whose
payload has no `meta` object. -/
theorem webhook_malformed_payload_500_witness :
    (metalessReq.xSignature.getD "" = mockHmacS "whsec" [1, 2, 3]) ∧
    webhookHandler mockHmacS fullEnv metalessReq = ⟨500, false, false⟩ := by
  refine ⟨by decide, webhook_malformed_payload_500 mockHmacS fullEnv
    metalessReq "whsec" [1, 2, 3] rfl rfl (by decide) (Or.inl rfl)⟩

/-- C4, amended: for every chat request whose last user-authored message
would be blocked by the moderation pipeline, the server responds 451 with
the fixed canned-safe-message body and does not issue the outbound LLM
proxy call; vision requests, however, are not moderated (see the
counterexample). -/
theorem chat_blocked_451 (key : Option String) (l1 : L1Outcome)
    (llm : LlmResult) (messages : Option (List ChatMsg)) (k : String)
    (hk : normalizeKey key = some k) (hk0 : k ≠ "")
    (hph : k ≠ "your_openrouter_key_here")
    (hbl : (moderateText l1 (some (lastUserText messages))).blocked = true) :
    chatHandler key l1 llm messages = ⟨451, true, false⟩ := by
  have ht : lastUserText messages ≠ "" := by
    intro h
    rw [h] at hbl
    simp [moderateText] at hbl
  simp only [chatHandler, hk]
  rw [if_neg (by rintro (h | h) <;> [exact hk0 h; exact hph h]),
    if_pos ⟨ht, hbl⟩]

/-- C4, witness: the amended theorem applied to a chat request whose last
user message is `kill`, with a valid key and the classifier unavailable. -/
theorem chat_blocked_451_witness :
    normalizeKey (some "sk-or-v1-abc") = some "sk-or-v1-abc" ∧
    (moderateText L1Outcome.unavailable
      (some (lastUserText (some [⟨"user", "kill"⟩])))).blocked = true ∧
    chatHandler (some "sk-or-v1-abc") L1Outcome.unavailable (LlmResult.okGood "resp")
      (some [⟨"user", "kill"⟩]) = ⟨451, true, false⟩ := by
  refine ⟨by decide, by decide, chat_blocked_451 (some "sk-or-v1-abc")
    L1Outcome.unavailable (LlmResult.okGood "resp") (some [⟨"user", "kill"⟩])
    "sk-or-v1-abc" (by decide) (by decide) (by decide) (by decide)⟩

/-- No blocklisted term pattern matches a text in which every occurrence
of every term is embedded against a word character on at least one side. -/
theorem keywordHit_none_of_embeddedOnly (lower : String)
    (hemb : embeddedOnly lower.data = true) : keywordHit lower = none := by
  rw [keywordHit]
  apply List.find?_eq_none.mpr
  intro term hterm
  simp only [Bool.not_eq_true]
  by_contra htest
  rw [Bool.not_eq_false] at htest
  unfold termTest at htest
  rw [List.any_eq_true] at htest
  obtain ⟨i, hir, hcand⟩ := htest
  rw [Bool.and_eq_true, Bool.and_eq_true] at hcand
  obtain ⟨⟨hocc, hleft⟩, hright⟩ := hcand
  obtain ⟨hpos, hfirst, hlast⟩ := terms_shape term hterm
  have hemb2 : occurrenceEmbedded lower.data term.data i = true := by
    have h1 := List.all_eq_true.mp (List.all_eq_true.mp hemb term hterm) i hir
    simp only [Bool.or_eq_true] at h1
    rcases h1 with h2 | h2
    · rw [hocc] at h2
      exact Bool.noConfusion h2
    · exact h2
  rw [occurrenceEmbedded, Bool.or_eq_true] at hemb2
  rcases hemb2 with hleftemb | hrightemb
  · rw [Bool.and_eq_true] at hleftemb
    obtain ⟨hi0, hwpre⟩ := hleftemb
    have hi0' : 0 < i := of_decide_eq_true hi0
    have hwi : wAt lower.data i = true := by
      have h := occursAt_wAt lower.data term.data i hocc 0 hpos
      rwa [Nat.add_zero, hfirst] at h
    rw [leftOk] at hleft
    simp only [Bool.or_eq_true] at hleft
    rcases hleft with (hA | hB) | hC
    · have : i = 0 := eq_of_beq hA
      omega
    · rw [spAt_of_wAt lower.data (i - 1) hwpre] at hB
      exact Bool.noConfusion hB
    · rw [boundaryAt, if_neg (by omega : ¬ i = 0), hwpre, hwi] at hC
      exact Bool.noConfusion hC
  · have hk0 : ¬ i + term.data.length = 0 := by omega
    have hwk1 : wAt lower.data (i + term.data.length - 1) = true := by
      have h := occursAt_wAt lower.data term.data i hocc (term.data.length - 1)
        (by omega)
      rw [hlast, show i + (term.data.length - 1) = i + term.data.length - 1 from by
        omega] at h
      exact h
    rw [rightOk] at hright
    simp only [Bool.or_eq_true] at hright
    rcases hright with (hA | hB) | hC
    · have h1 : i + term.data.length = lower.data.length := eq_of_beq hA
      have h2 := wAt_lt lower.data (i + term.data.length) hrightemb
      omega
    · rw [spAt_of_wAt lower.data (i + term.data.length) hrightemb] at hB
      exact Bool.noConfusion hB
    · rw [boundaryAt, if_neg hk0, hwk1, hrightemb] at hC
      exact Bool.noConfusion hC

/-- C7: for every text in which blocklisted terms appear only as proper
substrings of longer words (every occurrence of every term is directly
preceded or directly followed by a word character) and which layer 1 does
not flag, `moderateText` does not block: keyword matching produces no
false positive from substring containment. -/
theorem no_substring_false_positive (l1 : L1Outcome) (t : String)
    (hl1 : ∀ c, l1 ≠ L1Outcome.flagged c)
    (hemb : embeddedOnly (jsToLower t).data = true) :
    (moderateText l1 (some t)).blocked = false := by
  have hnone := keywordHit_none_of_embeddedOnly (jsToLower t) hemb
  by_cases ht : t = ""
  · simp [moderateText, ht]
  · cases l1 with
    | flagged c => exact absurd rfl (hl1 c)
    | unavailable => simp [moderateText, ht, hnone]
    | failure => simp [moderateText, ht, hnone]
    | notOk => simp [moderateText, ht, hnone]
    | clean => simp [moderateText, ht, hnone]

/-- C7, witness: the theorem applied to the text `skill`, which contains
the blocklisted term `kill` only inside the longer word. -/
theorem no_substring_false_positive_witness :
    embeddedOnly (jsToLower "skill").data = true ∧
    (moderateText L1Outcome.clean (some "skill")).blocked = false := by
  refine ⟨by decide, no_substring_false_positive L1Outcome.clean "skill"
    (fun c h => L1Outcome.noConfusion h) (by decide)⟩

end AiTutor

